import Mathlib

/-
Verification of the request-dispatch and toolkit-adaptation layer of a
cheminformatics web service.  The service parses an HTTP request, forwards the
SMILES string and options to one of several external chemistry engines, and
reshapes the engine output into an HTTP response.  The engines themselves
(RDKit, CDK over a JVM bridge, OpenBabel) are external collaborators and are
abstracted as function parameters; everything the routers and wrappers do with
their results is embedded faithfully from the source.
-/

/-- An abstract molecule object produced by an engine parser.  The engines are
black boxes, so a molecule is identified only by the text the parser accepted. -/
structure Mol where
  graph : String
deriving DecidableEq

/-- Outcome of a FastAPI handler: a 200 response whose JSON body may be null
(a Python handler that falls through without a return statement yields None,
which FastAPI serialises as a 200 response with a null body), or an
HTTPException carrying a status code and a detail message. -/
inductive Resp (α : Type) where
  | ok (body : Option α)
  | err (status : Nat) (detail : String)
deriving DecidableEq

/-- The HTTP status code of a handler outcome. -/
def Resp.statusCode {α : Type} : Resp α → Nat
  | .ok _ => 200
  | .err code _ => code

/-- A status code in the client-error range. -/
def is4xx (n : Nat) : Prop := 400 ≤ n ∧ n < 500

instance (n : Nat) : Decidable (is4xx n) := by
  unfold is4xx
  infer_instance

/-- State of the process-wide JVM runtime used by the CDK wrapper module. -/
structure JVMState where
  started : Bool
deriving DecidableEq

/-- Embedding of the module-level bootstrap guard of the CDK wrapper
(src/app/modules/toolkits/cdk_wrapper.py:18-40): when isJVMStarted is false the
block provisions the CDK jars and calls startJVM, otherwise it does nothing.
The result is the new runtime state together with whether startJVM was invoked.
Every adapter function of the module is defined below this block, so a caller
can only reach an adapter in the state this step produces. -/
def bootstrapStep (s : JVMState) : JVMState × Bool :=
  if s.started then (s, false) else (⟨true⟩, true)

/-- Repeating the bootstrap check a number of times, counting how often
startJVM is invoked in total. -/
def runBootstrap : Nat → JVMState → JVMState × Nat
  | 0, s => (s, 0)
  | n + 1, s =>
      let step := bootstrapStep s
      let rest := runBootstrap n step.1
      (rest.1, (if step.2 then 1 else 0) + rest.2)

/-- Characterwise substitution performed by the Python expression
smiles.replace of a single space for a plus sign. -/
def spacePlus (c : Char) : Char := if c = ' ' then '+' else c

/-- Embedding of the whitespace preprocessing at the top of getCDKSDG,
getMurkoFramework, getCDKSDGMol and getCDKHOSECodes
(src/app/modules/toolkits/cdk_wrapper.py:52-53, 73-74, 97-98, 482-483): when
any character of the input is whitespace, every space character is replaced by
a plus sign; Python str.replace with a one-character pattern is exactly the
characterwise map spacePlus. -/
def preprocessSmiles (s : String) : String :=
  if s.data.any Char.isWhitespace then String.mk (s.data.map spacePlus) else s

/-- Embedding of getCDKSDG (src/app/modules/toolkits/cdk_wrapper.py:43-61):
preprocess the SMILES, hand it to the CDK SmilesParser, then run the structure
diagram generator on the parsed molecule. -/
def getCDKSDG (cdkParse : String → Option Mol) (sdg : Mol → Mol) (s : String) :
    Option Mol :=
  (cdkParse (preprocessSmiles s)).map sdg

/-- Embedding of getCDKHOSECodes (src/app/modules/toolkits/cdk_wrapper.py:472-495):
preprocess the SMILES, parse it, then generate one HOSE code per atom. -/
def getCDKHOSECodes (cdkParse : String → Option Mol)
    (hose : Mol → Nat → Bool → List String)
    (s : String) (noOfSpheres : Nat) (ringsize : Bool) : Option (List String) :=
  (cdkParse (preprocessSmiles s)).map (fun mol => hose mol noOfSpheres ringsize)

/-- Embedding of getMurkoFramework (src/app/modules/toolkits/cdk_wrapper.py:64-83):
preprocess the SMILES, parse it with the CDK SmilesParser, run the Murcko
fragmenter on the molecule, and return the first framework, or the literal
string None when the fragmenter yields no frameworks. -/
def getMurkoFramework (cdkParse : String → Option Mol)
    (frameworks : Mol → List String) (s : String) : Option String :=
  (cdkParse (preprocessSmiles s)).map (fun mol =>
    match frameworks mol with
    | [] => "None"
    | fw :: _ => fw)

/-- Embedding of getCanonSMILES (src/app/modules/toolkits/cdk_wrapper.py:430-444):
built on getCDKSDG, then the Absolute flavour SmilesGenerator. -/
def getCanonSMILES (cdkParse : String → Option Mol) (sdg : Mol → Mol)
    (gen : Mol → String) (s : String) : Option String :=
  (getCDKSDG cdkParse sdg s).map gen

/-- Embedding of getCDKSDGMol (src/app/modules/toolkits/cdk_wrapper.py:86-107):
preprocesses the SMILES itself and then calls getCDKSDG, which preprocesses
again, before writing the molecule as an SDF block. -/
def getCDKSDGMol (cdkParse : String → Option Mol) (sdg : Mol → Mol)
    (writeSdf : Mol → String) (s : String) : Option String :=
  (getCDKSDG cdkParse sdg (preprocessSmiles s)).map writeSdf

/-- Modelled from the spec: the helper app.modules.toolkits.helpers.parse_input
is imported by the routers but its module is not under src.  Per the spec the
router delegates SMILES validation to the chosen engine parser, and an input the
engine rejects is surfaced as an HTTP 422 client error carrying the message,
while an accepted input yields the engine molecule object. -/
def parse_input (engineParse : String → Option Mol) (smiles : String) :
    Except (Nat × String) Mol :=
  match engineParse smiles with
  | some mol => .ok mol
  | none => .error (422, "Error reading SMILES string, please check again.")

/-- Boolean comparison used to embed the Python sorted builtin on strings:
ascending lexicographic order. -/
def strLe (a b : String) : Bool := decide (a ≤ b)

/-- Embedding of the handler get_stereoisomers (src/app/routers/chem.py:115-150):
parse the SMILES with RDKit, enumerate the stereoisomers, convert each to an
isomeric SMILES and return them sorted ascending.  A molecule object is always
truthy in Python, so the body guard holds whenever parsing succeeded. -/
def get_stereoisomers (rdkitParse : String → Option Mol)
    (enumerateIsomers : Mol → List Mol) (molToSmiles : Mol → String)
    (smiles : String) : Resp (List String) :=
  match parse_input rdkitParse smiles with
  | .error (code, detail) => .err code detail
  | .ok mol =>
      .ok (some (((enumerateIsomers mol).map molToSmiles).mergeSort strLe))

/-- Embedding of the handler classyfire_classify (src/app/routers/chem.py:809-846):
parse the SMILES with RDKit, then submit it to the remote ClassyFire service.
When the remote call yields a falsy payload the handler falls through without a
return statement, so FastAPI sends a 200 response with a null body. -/
def classyfire_classify (rdkitParse : String → Option Mol)
    (classifyRemote : String → Option String) (smiles : String) : Resp String :=
  match parse_input rdkitParse smiles with
  | .error (code, detail) => .err code detail
  | .ok _ =>
      match classifyRemote smiles with
      | some payload => .ok (some payload)
      | none => .ok none

/-- Toolkit choice of the 3D coordinates endpoint. -/
inductive Toolkit3D where
  | rdkit
  | openbabel
deriving DecidableEq

/-- Embedding of the handler Create3D_Coordinates
(src/app/routers/converters.py:117-161).  The rdkit branch returns the
conformer mol block, mapping a raised exception to HTTP 400.  The openbabel
branch first parses the SMILES with RDKit; when that parser returns None the
branch falls through without a return statement and the handler yields a 200
response with a null body; when it succeeds, the OpenBabel conversion runs and
a raised exception is likewise mapped to HTTP 400. -/
def Create3D_Coordinates (rdkitParse : String → Option Mol)
    (get3Dconformers : String → Except String String)
    (getOBMol : String → Except String String)
    (toolkit : Toolkit3D) (smiles : String) : Resp String :=
  match toolkit with
  | .rdkit =>
      match get3Dconformers smiles with
      | .ok molblock => .ok (some molblock)
      | .error e => .err 400 e
  | .openbabel =>
      match rdkitParse smiles with
      | some _ =>
          match getOBMol smiles with
          | .ok molblock => .ok (some molblock)
          | .error e => .err 400 e
      | none => .ok none

/-- Embedding of the handler np_likeness_score (src/app/routers/chem.py:583-618):
parse the SMILES with RDKit (a parse failure surfaces as 422 before the try
block), then compute the natural-product likeness score; an exception raised by
the computation is mapped to HTTP 500 carrying the message.  A zero score is
falsy in Python and makes the handler fall through to a 200 null response.
The scorer itself, app.modules.npscorer.get_np_score, is not under src and is
modelled from the spec as a compute step that yields the score or fails with a
ComputationError message. -/
def np_likeness_score (rdkitParse : String → Option Mol)
    (getNpScore : Mol → Except String ℚ) (smiles : String) : Resp ℚ :=
  match parse_input rdkitParse smiles with
  | .error (code, detail) => .err code detail
  | .ok mol =>
      match getNpScore mol with
      | .error e => .err 500 e
      | .ok v => if v = 0 then .ok none else .ok (some v)

/-- Embedding of the handler classyfire_result (src/app/routers/chem.py:862-891):
an empty job id is falsy and yields 422; otherwise the remote fetch runs and an
exception is mapped to HTTP 500 with the prefixed message.  The remote fetch,
app.modules.classyfire.result, is not under src and is modelled from the spec
as a remote call that may fail with a RemoteServiceError message. -/
def classyfire_result (fetchRemote : String → Except String String)
    (jobid : String) : Resp String :=
  if jobid = "" then .err 422 "Job ID is required."
  else
    match fetchRemote jobid with
    | .ok payload => .ok (some payload)
    | .error e => .err 500 ("Error processing request: " ++ e)

/-- Toolkit choice of the HOSE code endpoint. -/
inductive HoseToolkit where
  | cdk
  | rdkit
deriving DecidableEq

/-- Embedding of the handler hose_codes (src/app/routers/chem.py:327-392):
parse the SMILES with the chosen engine, generate one HOSE code per atom, and
when the resulting list is falsy (empty) raise HTTP 500. -/
def hose_codes (parseOf : HoseToolkit → String → Option Mol)
    (genOf : HoseToolkit → Mol → List String)
    (toolkit : HoseToolkit) (smiles : String) : Resp (List String) :=
  match parse_input (parseOf toolkit) smiles with
  | .error (code, detail) => .err code detail
  | .ok mol =>
      match genOf toolkit mol with
      | [] => .err 500 "Failed to generate HOSE codes, check settings."
      | code :: rest => .ok (some (code :: rest))

/-- Characters of the SMILES alphabet accepted by the model engine parser. -/
def isSmilesChar (c : Char) : Bool :=
  c.isAlpha || c.isDigit ||
    (c ∈ ['(', ')', '[', ']', '=', '#', '+', '-', '@', '/', '\\', '%', '.', ':'])

/-- Modelled from the spec: the external engine SMILES parsers (RDKit
Chem.MolFromSmiles, the CDK SmilesParser) are black boxes; per the spec they
reject an empty or syntactically invalid string such as not_a_smiles.  The
model accepts a nonempty string over the SMILES alphabet and rejects anything
else; the underscore makes not_a_smiles invalid. -/
def engineParseModel (s : String) : Option Mol :=
  if s ≠ "" && s.data.all isSmilesChar then some ⟨s⟩ else none

/-- Modelled from the spec: get3Dconformers lives in the RDKit wrapper module,
which is not under src.  Per the spec the adapter parses the input with the
engine, fails with a ParseError when the engine rejects the string, and
otherwise produces the conformer mol block. -/
def get3DconformersModel (rdkitParse : String → Option Mol) (s : String) :
    Except String String :=
  match rdkitParse s with
  | some mol => .ok ("3D molblock " ++ mol.graph)
  | none => .error "Error reading SMILES string, please check again."

/-- Modelled from the spec: getOBMol lives in the OpenBabel wrapper module,
which is not under src.  Per the spec the adapter parses the input with the
engine, fails with a ParseError when the engine rejects the string, and
otherwise produces the mol block. -/
def getOBMolModel (obParse : String → Option Mol) (s : String) :
    Except String String :=
  match obParse s with
  | some mol => .ok ("OB molblock " ++ mol.graph)
  | none => .error "Error reading SMILES string, please check again."

/-- Model of a natural-product likeness computation that fails with a
ComputationError, used to exhibit the 500 mapping at a concrete input. -/
def npScoreFailModel : Mol → Except String ℚ := fun _ => .error "np score computation failed"

/-- Model of a remote fetch that fails with a RemoteServiceError, used to
exhibit the 500 mapping at a concrete input. -/
def fetchFailModel : String → Except String String := fun _ => .error "remote service unreachable"

/-- Model of a HOSE code generator returning no codes, used to exhibit the 500
mapping at a concrete input. -/
def hoseEmptyModel : HoseToolkit → Mol → List String := fun _ _ => []

/-- Tanimoto coefficient on fingerprint bit sets, as computed by the CDK
Tanimoto class on java BitSet values: the number of common bits divided by
card one plus card two minus the common count.  The computation is embedded
over the rationals; the denominator is zero exactly when both bit sets are
empty, the case in which the java float division yields NaN. -/
def tanimotoQ (A B : Finset Nat) : ℚ :=
  ((A ∩ B).card : ℚ) / ((A.card : ℚ) + (B.card : ℚ) - ((A ∩ B).card : ℚ))

/-- Python percent-point-five formatting of the similarity before it is turned
back into a float by the router, modelled as rounding to five decimal places. -/
def format5 (q : ℚ) : ℚ := ((round (q * 100000) : ℤ) : ℚ) / 100000

/-- Embedding of getTanimotoSimilarityCDK
(src/app/modules/toolkits/cdk_wrapper.py:239-300): parse both SMILES with the
CDK parser, returning the sentinel error string when either parse fails, then
compute PubChem fingerprints for both molecules and their Tanimoto similarity,
formatted to five decimal places.  The parser and the fingerprinter are the
external engine, abstracted as function parameters. -/
def getTanimotoSimilarityCDK (cdkParse : String → Option Mol)
    (fingerprint : Mol → Finset Nat) (smiles1 smiles2 : String) :
    Except String ℚ :=
  match cdkParse smiles1, cdkParse smiles2 with
  | some mol1, some mol2 =>
      .ok (format5 (tanimotoQ (fingerprint mol1) (fingerprint mol2)))
  | _, _ => .error "Check the SMILES string for errors"

/-- Toolkit choice of the canonical SMILES endpoint. -/
inductive CanonToolkit where
  | cdk
  | rdkit
  | openbabel
deriving DecidableEq

/-- Canonicalisation as every branch of the endpoint performs it: parse the
input with the branch engine, then write the canonical string of the parsed
molecule. -/
def canonicalizeWith (parse : String → Option Mol) (write : Mol → String)
    (s : String) : Option String :=
  (parse s).map write

/-- Embedding of the handler SMILES_Canonicalise
(src/app/routers/converters.py:227-276): the cdk branch reaches the CDK parser
through getCanonSMILES and getCDKSDG (so its parse function is the composition
of the engine parser with preprocessSmiles), the rdkit branch uses
Chem.MolFromSmiles and Chem.MolToSmiles, and the openbabel branch uses the
OpenBabel wrapper.  In every branch a parse failure surfaces as HTTP 400: the
wrapper exceptions and the explicit rdkit-branch HTTPException are all caught
by the enclosing except clause and re-raised with status 400. -/
def SMILES_Canonicalise (parseOf : CanonToolkit → String → Option Mol)
    (writeOf : CanonToolkit → Mol → String) (toolkit : CanonToolkit)
    (smiles : String) : Resp String :=
  match canonicalizeWith (parseOf toolkit) (writeOf toolkit) smiles with
  | some canonical => .ok (some canonical)
  | none => .err 400 "Error reading input text, please check again."

/-- Python str.split with a one-character separator, on the character list:
the list of maximal separator-free groups, with empty groups kept. -/
def splitOnCharList (sep : Char) : List Char → List (List Char)
  | [] => [[]]
  | c :: cs =>
      match splitOnCharList sep cs with
      | [] => [[]]
      | group :: rest =>
          if c = sep then [] :: group :: rest else (c :: group) :: rest

/-- The dash split applied by the filter endpoint to a numeric-range query
parameter, as Python str.split of a dash. -/
def splitDash (s : String) : List String :=
  (splitOnCharList '-' s.data).map String.mk

/-- Value of a digit run, none when a non-digit occurs. -/
def digitsToNat : List Char → Option Nat
  | [] => some 0
  | c :: cs =>
      if c.isDigit then
        (digitsToNat cs).map (fun n => (c.toNat - 48) * 10 ^ cs.length + n)
      else none

/-- Python float conversion restricted to the plain decimal numerals the range
bounds use: an integer part, optionally a dot and a fractional part, at least
one digit overall; the value is exact as a rational. -/
def parseFloatQ (s : String) : Option ℚ :=
  match splitOnCharList '.' s.data with
  | [w] =>
      if w = [] then none
      else (digitsToNat w).map (fun n => (n : ℚ))
  | [w, f] =>
      if w = [] && f = [] then none
      else
        match digitsToNat w, digitsToNat f with
        | some n, some m => some ((n : ℚ) + (m : ℚ) / 10 ^ f.length)
        | _, _ => none
  | _ => none

/-- Outcome of one numeric-range filter block: the block is skipped when the
split does not give exactly two parts, a float conversion failure propagates as
an exception, and otherwise the score is thresholded to a boolean. -/
inductive RangeOutcome where
  | skipped
  | raised
  | checked (pass : Bool)
deriving DecidableEq

/-- Embedding of one numeric-range filter block of all_filter_molecules
(src/app/routers/chem.py:1007-1035): the query string is split on dashes and
the block runs only when that gives exactly two parts; each part is converted
with the float builtin, and the computed score passes exactly when it lies
between the two bounds inclusively.  The same block appears verbatim for the
qedscore, sascore and nplikeness parameters, differing only in the score. -/
def applyScoreRange (rangeQuery : String) (v : ℚ) : RangeOutcome :=
  match splitDash rangeQuery with
  | [a, b] =>
      match parseFloatQ a, parseFloatQ b with
      | some lo, some hi => .checked (decide (lo ≤ v) && decide (v ≤ hi))
      | _, _ => .raised
  | _ => .skipped

/-- A Python exception of the depiction module. -/
inductive PyExc where
  | invalidSmiles (msg : String)
  | nameError (varName : String)
deriving DecidableEq

/-- Names in scope at the rotation step of getCDKDepiction
(src/app/modules/depict.py:9-41): its two parameters followed by every local
bound earlier in the body. -/
def depictionScope : List String :=
  ["smiles", "molSize", "cdk_base", "StandardGenerator", "DepictionGenerator",
   "Color", "UniColor", "getString", "moleculeSDG", "point"]

/-- Module-level names of src/app/modules/depict.py (imports and the two
function definitions); the name rotate is not among them, nor is it a Python
builtin. -/
def depictGlobals : List String :=
  ["Chem", "rdDepictor", "rdMolDraw2D", "getCDKSDG", "ET", "JClass",
   "getCDKDepiction", "getRDKitDepiction"]

/-- Python name resolution at the rotation step: a name evaluates when it is a
parameter, an earlier local, or a module global; otherwise NameError is raised. -/
def resolveAtRotation (n : String) : Except PyExc Unit :=
  if n ∈ depictionScope ∨ n ∈ depictGlobals then .ok ()
  else .error (.nameError n)

/-- Embedding of getCDKDepiction (src/app/modules/depict.py:9-58): build the
SDG molecule from the SMILES (the CDK parser rejecting the string raises
there), then evaluate the rotation expression, which reads the free name
rotate; only afterwards would the function depict the molecule and rescale the
SVG string. -/
def getCDKDepiction (cdkSDGStep : String → Except PyExc Mol)
    (depictSvg : Mol → String) (rescaleSvg : String → Nat × Nat → String)
    (smiles : String) (molSize : Nat × Nat) : Except PyExc String :=
  match cdkSDGStep smiles with
  | .error e => .error e
  | .ok moleculeSDG =>
      match resolveAtRotation "rotate" with
      | .error e => .error e
      | .ok _ => .ok (rescaleSvg (depictSvg moleculeSDG) molSize)

/-- Toy engine for witnesses: accepts every string, molecule carries the text. -/
def parseAllModel : String → Option Mol := fun s => some ⟨s⟩

/-- Toy canonicalisation branches for the idempotence witness: every branch
parses to the text molecule and writes its text back, which satisfies the
engine round-trip contract definitionally. -/
def parseOfModel : CanonToolkit → String → Option Mol := fun _ s => some ⟨s⟩

/-- Toy canonical writer for the idempotence witness. -/
def writeOfModel : CanonToolkit → Mol → String := fun _ mol => mol.graph

/-- Toy stereoisomer enumeration for witnesses: two isomers per molecule. -/
def enumTwoModel : Mol → List Mol := fun mol => [mol, ⟨mol.graph ++ "@"⟩]

/-- Toy isomeric SMILES writer for witnesses. -/
def molToSmilesModel : Mol → String := fun mol => mol.graph

/-- Remote classification that yields no payload, for witnesses. -/
def classifyNoneModel : String → Option String := fun _ => none

/-- Toy fingerprint for witnesses: a one-bit set. -/
def fingerprintModel : Mol → Finset Nat := fun mol => {mol.graph.length}

/-- Toy CDK layer that accepts every SMILES, for the depiction witness. -/
def cdkSDGOkModel : String → Except PyExc Mol := fun s => .ok ⟨s⟩

/-- Toy depiction for the depiction witness. -/
def depictSvgModel : Mol → String := fun mol => "svg " ++ mol.graph

/-- Toy SVG rescaling for the depiction witness. -/
def rescaleSvgModel : String → Nat × Nat → String := fun svg _ => svg

lemma bootstrapStep_started (s : JVMState) : ((bootstrapStep s).1).started = true := by
  unfold bootstrapStep
  by_cases h : s.started
  · simp [h]
  · simp [h]

lemma runBootstrap_of_started (n : Nat) :
    runBootstrap n ⟨true⟩ = (⟨true⟩, 0) := by
  induction n with
  | zero => rfl
  | succ k ih =>
      unfold runBootstrap bootstrapStep
      simp [ih]

lemma spacePlus_idem (c : Char) : spacePlus (spacePlus c) = spacePlus c := by
  unfold spacePlus
  by_cases h : c = ' '
  · simp [h]
  · simp [h]

lemma spacePlus_ne_space (c : Char) : spacePlus c ≠ ' ' := by
  unfold spacePlus
  by_cases h : c = ' '
  · simp [h]
  · simp [h]

lemma space_not_mem_map_spacePlus (l : List Char) : ' ' ∉ l.map spacePlus := by
  intro hmem
  rcases List.mem_map.mp hmem with ⟨c, _, hc⟩
  exact spacePlus_ne_space c hc

lemma preprocessSmiles_idem (s : String) :
    preprocessSmiles (preprocessSmiles s) = preprocessSmiles s := by
  unfold preprocessSmiles
  by_cases h : s.data.any Char.isWhitespace
  · simp only [h, if_true]
    by_cases h2 : (String.mk (s.data.map spacePlus)).data.any Char.isWhitespace
    · simp only [h2, if_true]
      have hmap : (String.mk (s.data.map spacePlus)).data.map spacePlus
          = s.data.map spacePlus := by
        show (s.data.map spacePlus).map spacePlus = s.data.map spacePlus
        rw [List.map_map]
        exact List.map_congr_left (fun c _ => spacePlus_idem c)
      rw [hmap]
    · simp [h2]
  · simp [h]


/-- Claim C7: the process-wide JVM bootstrap executes at most once per process.
Over any positive number of repetitions of the module guard, startJVM is
invoked exactly once from a fresh state and never from an already started
state; the start step runs only when the runtime is not already started; and
the bootstrap leaves the runtime started, the state in which the CDK adapter
functions defined below the module block become callable. -/
theorem jvm_bootstrap_at_most_once (s0 : JVMState) (n : Nat) :
    (runBootstrap (n + 1) s0).2 = (if s0.started then 0 else 1) ∧
    (bootstrapStep s0).2 = !s0.started ∧
    ((bootstrapStep s0).1).started = true ∧
    ((runBootstrap (n + 1) s0).1).started = true := by
  obtain ⟨b⟩ := s0
  cases b
  · refine ⟨?_, ?_, ?_, ?_⟩ <;>
      simp [runBootstrap, bootstrapStep, runBootstrap_of_started]
  · refine ⟨?_, ?_, ?_, ?_⟩ <;>
      simp [runBootstrap, bootstrapStep, runBootstrap_of_started]

/-- Claim C10: for every input SMILES the function getCDKDepiction of
src/app/modules/depict.py can never return the rescaled SVG string, and
whenever the CDK layer produces the molecule the rotation step raises
NameError for the free name rotate, which is neither a parameter nor a local
nor a module global. -/
theorem cdk_depiction_name_error (cdkSDGStep : String → Except PyExc Mol)
    (depictSvg : Mol → String) (rescaleSvg : String → Nat × Nat → String) :
    (∀ (smiles : String) (molSize : Nat × Nat) (svg : String),
      getCDKDepiction cdkSDGStep depictSvg rescaleSvg smiles molSize ≠ .ok svg) ∧
    (∀ (smiles : String) (molSize : Nat × Nat) (mol : Mol),
      cdkSDGStep smiles = .ok mol →
      getCDKDepiction cdkSDGStep depictSvg rescaleSvg smiles molSize =
        .error (.nameError "rotate")) := by
  have hnotmem : ¬("rotate" ∈ depictionScope ∨ "rotate" ∈ depictGlobals) := by
    decide
  have hresolve : resolveAtRotation "rotate" = .error (.nameError "rotate") := by
    unfold resolveAtRotation
    rw [if_neg hnotmem]
  constructor
  · intro smiles molSize svg hcontra
    unfold getCDKDepiction at hcontra
    cases hs : cdkSDGStep smiles with
    | error e =>
        rw [hs] at hcontra
        simp at hcontra
    | ok mol =>
        rw [hs, hresolve] at hcontra
        simp at hcontra
  · intro smiles molSize mol hs
    unfold getCDKDepiction
    rw [hs, hresolve]

/-- Claim C10 witness: at the concrete SMILES CC, with a CDK layer that accepts
it, the depiction function raises NameError for rotate. -/
theorem cdk_depiction_name_error_witness :
    getCDKDepiction cdkSDGOkModel depictSvgModel rescaleSvgModel "CC" (512, 512) =
      .error (.nameError "rotate") :=
  (cdk_depiction_name_error cdkSDGOkModel depictSvgModel rescaleSvgModel).2
    "CC" (512, 512) ⟨"CC"⟩ rfl

/-- Claim C4: for every SMILES accepted by the chosen engine branch,
canonicalisation through the canonical SMILES endpoint is idempotent: feeding
a canonical output back into the same toolkit branch returns the identical
string.  The engine is a black box, so the hypothesis is its canonicalisation
contract: parsing a written canonical string recovers the same molecule
object. -/
theorem canonicalize_idempotent (parseOf : CanonToolkit → String → Option Mol)
    (writeOf : CanonToolkit → Mol → String) (toolkit : CanonToolkit)
    (hround : ∀ mol : Mol, parseOf toolkit (writeOf toolkit mol) = some mol)
    (s c : String)
    (h : SMILES_Canonicalise parseOf writeOf toolkit s = .ok (some c)) :
    SMILES_Canonicalise parseOf writeOf toolkit c = .ok (some c) := by
  unfold SMILES_Canonicalise canonicalizeWith at h ⊢
  cases hp : parseOf toolkit s with
  | none =>
      rw [hp] at h
      simp at h
  | some mol =>
      rw [hp] at h
      simp at h
      rw [← h, hround mol]
      simp

/-- Claim C4 witness: a concrete engine satisfying the round-trip contract at
the concrete input CCO. -/
theorem canonicalize_idempotent_witness :
    SMILES_Canonicalise parseOfModel writeOfModel .cdk "CCO" = .ok (some "CCO") :=
  canonicalize_idempotent parseOfModel writeOfModel .cdk (fun _ => rfl)
    "CCO" "CCO" rfl

/-- Claim C9: for every input SMILES containing a space, the CDK wrapper entry
points replace every space character by a plus sign before the string reaches
the CDK parser: the preprocessed string is the characterwise substitution,
contains no space, and differs from the original, so the engine never parses
the original spaced string; getCDKSDG, getCDKHOSECodes, getMurkoFramework and
every operation built on getCDKSDG hand the parser exactly the preprocessed
string, and getCDKSDGMol preprocesses twice, which collapses to once by
idempotence. -/
theorem cdk_space_replacement (s : String) (h : ' ' ∈ s.data) :
    (preprocessSmiles s).data = s.data.map spacePlus ∧
    ' ' ∉ (preprocessSmiles s).data ∧
    preprocessSmiles s ≠ s ∧
    (∀ (cdkParse : String → Option Mol) (sdg : Mol → Mol),
      getCDKSDG cdkParse sdg s = (cdkParse (preprocessSmiles s)).map sdg) ∧
    (∀ (cdkParse : String → Option Mol) (hose : Mol → Nat → Bool → List String)
        (n : Nat) (r : Bool),
      getCDKHOSECodes cdkParse hose s n r =
        (cdkParse (preprocessSmiles s)).map (fun mol => hose mol n r)) ∧
    (∀ (cdkParse : String → Option Mol) (frameworks : Mol → List String),
      getMurkoFramework cdkParse frameworks s =
        (cdkParse (preprocessSmiles s)).map (fun mol =>
          match frameworks mol with
          | [] => "None"
          | fw :: _ => fw)) ∧
    (∀ (cdkParse : String → Option Mol) (sdg : Mol → Mol)
        (writeSdf : Mol → String),
      getCDKSDGMol cdkParse sdg writeSdf s =
        ((cdkParse (preprocessSmiles s)).map sdg).map writeSdf) := by
  have hany : s.data.any Char.isWhitespace = true := by
    apply List.any_eq_true.mpr
    exact ⟨' ', h, by decide⟩
  have hdata : (preprocessSmiles s).data = s.data.map spacePlus := by
    unfold preprocessSmiles
    rw [hany]
    simp
  refine ⟨hdata, ?_, ?_, fun _ _ => rfl, fun _ _ _ _ => rfl, fun _ _ => rfl, ?_⟩
  · rw [hdata]
    exact space_not_mem_map_spacePlus s.data
  · intro heq
    have hmem : ' ' ∈ (preprocessSmiles s).data := by
      rw [heq]
      exact h
    rw [hdata] at hmem
    exact space_not_mem_map_spacePlus s.data hmem
  · intro cdkParse sdg writeSdf
    show ((cdkParse (preprocessSmiles (preprocessSmiles s))).map sdg).map writeSdf
      = ((cdkParse (preprocessSmiles s)).map sdg).map writeSdf
    rw [preprocessSmiles_idem]

/-- Claim C9 witness: the concrete spaced input C C is transformed before
parsing. -/
theorem cdk_space_replacement_witness :
    preprocessSmiles "C C" ≠ "C C" ∧ ' ' ∉ (preprocessSmiles "C C").data :=
  ⟨(cdk_space_replacement "C C" (by decide)).2.2.1,
   (cdk_space_replacement "C C" (by decide)).2.1⟩

/-- Claim C1 counterexample: when the engine rejects not_a_smiles, the 3D
coordinates endpoint with the openbabel toolkit returns a 200 response with a
null body, not a 4xx error: the handler falls through without a return
statement after Chem.MolFromSmiles yields None. -/
theorem mol3D_openbabel_silent_success :
    Create3D_Coordinates engineParseModel (get3DconformersModel engineParseModel)
        (getOBMolModel engineParseModel) .openbabel "not_a_smiles" = .ok none ∧
    ¬ is4xx (Resp.statusCode (Create3D_Coordinates engineParseModel
        (get3DconformersModel engineParseModel) (getOBMolModel engineParseModel)
        .openbabel "not_a_smiles")) := by
  constructor
  · rfl
  · decide

/-- Claim C1 amended: an empty or syntactically invalid SMILES yields a 4xx
error from the stereoisomers and classyfire endpoints and from the rdkit
branch of the 3D coordinates endpoint, but the openbabel branch of the 3D
coordinates endpoint instead returns a silent 200 response with a null body. -/
theorem invalid_smiles_4xx_except_mol3D (rdkitParse : String → Option Mol)
    (enumerateIsomers : Mol → List Mol) (molToSmiles : Mol → String)
    (classifyRemote : String → Option String)
    (getOBMol : String → Except String String)
    (s : String) (hbad : rdkitParse s = none) :
    get_stereoisomers rdkitParse enumerateIsomers molToSmiles s =
      .err 422 "Error reading SMILES string, please check again." ∧
    classyfire_classify rdkitParse classifyRemote s =
      .err 422 "Error reading SMILES string, please check again." ∧
    Create3D_Coordinates rdkitParse (get3DconformersModel rdkitParse) getOBMol
      .rdkit s = .err 400 "Error reading SMILES string, please check again." ∧
    Create3D_Coordinates rdkitParse (get3DconformersModel rdkitParse) getOBMol
      .openbabel s = .ok none := by
  refine ⟨?_, ?_, ?_, ?_⟩ <;>
    simp [get_stereoisomers, classyfire_classify, Create3D_Coordinates,
      parse_input, get3DconformersModel, hbad]

/-- Claim C1 witness: the amended behaviour at the concrete invalid input
not_a_smiles. -/
theorem invalid_smiles_4xx_except_mol3D_witness :
    get_stereoisomers engineParseModel enumTwoModel molToSmilesModel
      "not_a_smiles" =
      .err 422 "Error reading SMILES string, please check again." ∧
    classyfire_classify engineParseModel classifyNoneModel "not_a_smiles" =
      .err 422 "Error reading SMILES string, please check again." ∧
    Create3D_Coordinates engineParseModel (get3DconformersModel engineParseModel)
      (getOBMolModel engineParseModel) .rdkit "not_a_smiles" =
      .err 400 "Error reading SMILES string, please check again." ∧
    Create3D_Coordinates engineParseModel (get3DconformersModel engineParseModel)
      (getOBMolModel engineParseModel) .openbabel "not_a_smiles" = .ok none :=
  invalid_smiles_4xx_except_mol3D engineParseModel enumTwoModel molToSmilesModel
    classifyNoneModel (getOBMolModel engineParseModel) "not_a_smiles" rfl

/-- Claim C2 counterexample: at the valid SMILES CC with a natural-product
score computation that raises, the np_likeness_score handler responds with
HTTP 500 carrying the message, not a status in the 400 to 422 client range. -/
theorem np_likeness_500_counterexample :
    np_likeness_score engineParseModel npScoreFailModel "CC" =
      .err 500 "np score computation failed" ∧
    ¬ is4xx (Resp.statusCode
      (np_likeness_score engineParseModel npScoreFailModel "CC")) := by
  constructor
  · rfl
  · decide

/-- Claim C2 amended: a downstream parse failure is mapped to HTTP 422
carrying the message, but the compute and remote failure paths of
np_likeness_score, classyfire_result and hose_codes are mapped to HTTP 500
carrying the underlying message; no path retries, each handler applies its
downstream step exactly once. -/
theorem failure_status_mapping :
    (∀ (rdkitParse : String → Option Mol) (getNpScore : Mol → Except String ℚ)
        (s : String), rdkitParse s = none →
      np_likeness_score rdkitParse getNpScore s =
        .err 422 "Error reading SMILES string, please check again.") ∧
    (∀ (rdkitParse : String → Option Mol) (getNpScore : Mol → Except String ℚ)
        (s : String) (mol : Mol) (msg : String),
      rdkitParse s = some mol → getNpScore mol = .error msg →
      np_likeness_score rdkitParse getNpScore s = .err 500 msg) ∧
    (∀ (fetchRemote : String → Except String String) (jobid msg : String),
      jobid ≠ "" → fetchRemote jobid = .error msg →
      classyfire_result fetchRemote jobid =
        .err 500 ("Error processing request: " ++ msg)) ∧
    (∀ (parseOf : HoseToolkit → String → Option Mol)
        (genOf : HoseToolkit → Mol → List String) (tk : HoseToolkit)
        (s : String) (mol : Mol),
      parseOf tk s = some mol → genOf tk mol = [] →
      hose_codes parseOf genOf tk s =
        .err 500 "Failed to generate HOSE codes, check settings.") := by
  refine ⟨?_, ?_, ?_, ?_⟩
  · intro rdkitParse getNpScore s hbad
    simp [np_likeness_score, parse_input, hbad]
  · intro rdkitParse getNpScore s mol msg hok hfail
    simp [np_likeness_score, parse_input, hok, hfail]
  · intro fetchRemote jobid msg hjob hfail
    simp [classyfire_result, hjob, hfail]
  · intro parseOf genOf tk s mol hok hempty
    simp [hose_codes, parse_input, hok, hempty]

/-- Claim C2 witness: the amended status mapping at concrete inputs: an
invalid SMILES gives 422, a failing score computation gives 500, a failing
remote fetch gives 500 with the prefixed message, and an empty HOSE code list
gives 500. -/
theorem failure_status_mapping_witness :
    np_likeness_score engineParseModel npScoreFailModel "not_a_smiles" =
      .err 422 "Error reading SMILES string, please check again." ∧
    np_likeness_score engineParseModel npScoreFailModel "CC" =
      .err 500 "np score computation failed" ∧
    classyfire_result fetchFailModel "job1" =
      .err 500 ("Error processing request: " ++ "remote service unreachable") ∧
    hose_codes (fun _ => engineParseModel) hoseEmptyModel .cdk "CC" =
      .err 500 "Failed to generate HOSE codes, check settings." :=
  ⟨failure_status_mapping.1 engineParseModel npScoreFailModel "not_a_smiles" rfl,
   failure_status_mapping.2.1 engineParseModel npScoreFailModel "CC" ⟨"CC"⟩
     "np score computation failed" rfl rfl,
   failure_status_mapping.2.2.1 fetchFailModel "job1"
     "remote service unreachable" (by decide) rfl,
   failure_status_mapping.2.2.2 (fun _ => engineParseModel) hoseEmptyModel .cdk
     "CC" ⟨"CC"⟩ rfl rfl⟩

/-- The string comparison used by the sort is transitive. -/
lemma strLe_trans (a b c : String) (hab : strLe a b = true)
    (hbc : strLe b c = true) : strLe a c = true :=
  decide_eq_true
    (le_trans (of_decide_eq_true hab) (of_decide_eq_true hbc))

/-- The string comparison used by the sort is total. -/
lemma strLe_total (a b : String) : (strLe a b || strLe b a) = true := by
  rcases le_total a b with h | h
  · simp [strLe, h]
  · simp [strLe, h]

/-- Claim C8: for every SMILES accepted by RDKit the stereoisomers endpoint
returns the isomeric SMILES of the enumerated stereoisomers sorted in
ascending lexicographic order, one entry per enumerated stereoisomer: the
returned list is sorted, is a permutation of the isomeric SMILES of the
enumeration, and has the same length as the enumeration. -/
theorem stereoisomers_sorted_ascending (rdkitParse : String → Option Mol)
    (enumerateIsomers : Mol → List Mol) (molToSmiles : Mol → String)
    (s : String) (mol : Mol) (h : rdkitParse s = some mol) :
    ∃ xs : List String,
      get_stereoisomers rdkitParse enumerateIsomers molToSmiles s =
        .ok (some xs) ∧
      xs.Sorted (· ≤ ·) ∧
      xs.Perm ((enumerateIsomers mol).map molToSmiles) ∧
      xs.length = (enumerateIsomers mol).length := by
  refine ⟨((enumerateIsomers mol).map molToSmiles).mergeSort strLe,
    ?_, ?_, ?_, ?_⟩
  · unfold get_stereoisomers parse_input
    rw [h]
  · have hp := List.sorted_mergeSort strLe_trans strLe_total
      ((enumerateIsomers mol).map molToSmiles)
    exact hp.imp (fun hab => of_decide_eq_true hab)
  · exact List.mergeSort_perm _ _
  · rw [(List.mergeSort_perm _ _).length_eq, List.length_map]

/-- Claim C8 witness: the sorted enumeration at the concrete accepted SMILES
CC with a concrete two-isomer enumeration. -/
theorem stereoisomers_sorted_ascending_witness :
    ∃ xs : List String,
      get_stereoisomers engineParseModel enumTwoModel molToSmilesModel "CC" =
        .ok (some xs) ∧
      xs.Sorted (· ≤ ·) ∧
      xs.Perm ["CC", "CC@"] ∧
      xs.length = 2 :=
  stereoisomers_sorted_ascending engineParseModel enumTwoModel molToSmilesModel
    "CC" ⟨"CC"⟩ rfl

/-- Claim C6: a numeric-range query parameter of the filter endpoint of the
form lo dash hi is parsed as exactly two dash-separated floats, and the filter
block reports true exactly when the computed score lies between the two bounds
inclusively, both endpoints included. -/
theorem range_filter_two_floats_inclusive (s a b : String) (lo hi v : ℚ)
    (hsplit : splitDash s = [a, b])
    (hlo : parseFloatQ a = some lo) (hhi : parseFloatQ b = some hi) :
    applyScoreRange s v = .checked (decide (lo ≤ v) && decide (v ≤ hi)) ∧
    (applyScoreRange s v = .checked true ↔ (lo ≤ v ∧ v ≤ hi)) := by
  have h1 : applyScoreRange s v =
      .checked (decide (lo ≤ v) && decide (v ≤ hi)) := by
    unfold applyScoreRange
    rw [hsplit]
    dsimp only
    rw [hlo, hhi]
  refine ⟨h1, ?_⟩
  rw [h1]
  constructor
  · intro h2
    have h3 : (decide (lo ≤ v) && decide (v ≤ hi)) = true := by
      injection h2
    rcases Bool.and_eq_true_iff.mp h3 with ⟨hl, hr⟩
    exact ⟨of_decide_eq_true hl, of_decide_eq_true hr⟩
  · intro hv
    rw [decide_eq_true hv.1, decide_eq_true hv.2]
    rfl

/-- Claim C6 witness: the default range zero dash ten at the boundary score
zero, which passes because the bounds are inclusive. -/
theorem range_filter_two_floats_inclusive_witness :
    applyScoreRange "0-10" 0 = .checked true :=
  (range_filter_two_floats_inclusive "0-10" "0" "10" 0 10 0 rfl rfl rfl).2.mpr
    ⟨le_refl 0, by norm_num⟩

/-- The Tanimoto coefficient is symmetric in its two bit sets. -/
lemma tanimotoQ_comm (A B : Finset Nat) : tanimotoQ A B = tanimotoQ B A := by
  unfold tanimotoQ
  rw [Finset.inter_comm, add_comm]

/-- The Tanimoto coefficient of a nonempty bit set with itself is one. -/
lemma tanimotoQ_self (A : Finset Nat) (hA : A.Nonempty) : tanimotoQ A A = 1 := by
  unfold tanimotoQ
  rw [Finset.inter_self]
  have hcard : (0:ℚ) < (A.card : ℚ) := by
    exact_mod_cast Finset.card_pos.mpr hA
  have hden : (A.card : ℚ) + (A.card : ℚ) - (A.card : ℚ) = (A.card : ℚ) := by
    ring
  rw [hden]
  exact div_self (ne_of_gt hcard)

/-- Rounding is monotone. -/
lemma round_le_round {x y : ℚ} (h : x ≤ y) : round x ≤ round y := by
  rw [round_eq, round_eq]
  exact Int.floor_mono (by linarith)

/-- Rounding a rational that is a whole number times one is itself. -/
lemma format5_one : format5 1 = 1 := by
  unfold format5
  rw [one_mul,
    show ((100000:ℚ)) = ((100000:ℤ):ℚ) by norm_num, round_intCast]
  norm_num

/-- The Tanimoto coefficient lies in the unit interval when the first bit set
is nonempty. -/
lemma tanimotoQ_mem_unit (A B : Finset Nat) (hA : A.Nonempty) :
    0 ≤ tanimotoQ A B ∧ tanimotoQ A B ≤ 1 := by
  unfold tanimotoQ
  have hcu := Finset.card_union_add_card_inter A B
  have hd : (A.card : ℚ) + (B.card : ℚ) - ((A ∩ B).card : ℚ)
      = ((A ∪ B).card : ℚ) := by
    have : ((A ∪ B).card : ℚ) + ((A ∩ B).card : ℚ)
        = (A.card : ℚ) + (B.card : ℚ) := by
      exact_mod_cast congrArg (fun n : Nat => (n : ℚ)) hcu
    linarith
  rw [hd]
  have hu : (0:ℚ) < ((A ∪ B).card : ℚ) := by
    have : 0 < (A ∪ B).card :=
      Finset.card_pos.mpr (hA.mono Finset.subset_union_left)
    exact_mod_cast this
  constructor
  · apply div_nonneg _ (le_of_lt hu)
    exact_mod_cast Nat.zero_le _
  · rw [div_le_one hu]
    exact_mod_cast Finset.card_le_card Finset.inter_subset_union

/-- Formatting to five decimal places keeps a value of the unit interval in
the unit interval. -/
lemma format5_mem_unit {q : ℚ} (h0 : 0 ≤ q) (h1 : q ≤ 1) :
    0 ≤ format5 q ∧ format5 q ≤ 1 := by
  unfold format5
  have hl : (0:ℤ) ≤ round (q * 100000) := by
    have h := round_le_round (show (0:ℚ) ≤ q * 100000 by positivity)
    rwa [round_zero] at h
  have hu : round (q * 100000) ≤ (100000:ℤ) := by
    have h := round_le_round (show q * 100000 ≤ ((100000:ℤ):ℚ) by push_cast; nlinarith)
    rwa [round_intCast] at h
  constructor
  · apply div_nonneg _ (by norm_num)
    exact_mod_cast hl
  · rw [div_le_one (by norm_num)]
    exact_mod_cast hu

/-- Claim C3: for every pair of SMILES accepted by the CDK engine, the CDK
Tanimoto similarity is symmetric, and on a pair of equal inputs it is exactly
one, provided the engine assigns the molecule a nonempty fingerprint (on an
empty fingerprint the java float division is zero over zero). -/
theorem tanimoto_symmetric_reflexive (cdkParse : String → Option Mol)
    (fingerprint : Mol → Finset Nat) (a b : String) (ma mb : Mol)
    (ha : cdkParse a = some ma) (hb : cdkParse b = some mb)
    (hne : (fingerprint ma).Nonempty) :
    getTanimotoSimilarityCDK cdkParse fingerprint a b =
      getTanimotoSimilarityCDK cdkParse fingerprint b a ∧
    getTanimotoSimilarityCDK cdkParse fingerprint a a = .ok 1 := by
  constructor
  · unfold getTanimotoSimilarityCDK
    rw [ha, hb]
    dsimp only
    rw [tanimotoQ_comm]
  · unfold getTanimotoSimilarityCDK
    rw [ha]
    dsimp only
    rw [tanimotoQ_self (fingerprint ma) hne, format5_one]

/-- Claim C3 witness: symmetry and the unit self similarity at the concrete
accepted pair CC and CN. -/
theorem tanimoto_symmetric_reflexive_witness :
    getTanimotoSimilarityCDK engineParseModel fingerprintModel "CC" "CN" =
      getTanimotoSimilarityCDK engineParseModel fingerprintModel "CN" "CC" ∧
    getTanimotoSimilarityCDK engineParseModel fingerprintModel "CC" "CC" =
      .ok 1 :=
  tanimoto_symmetric_reflexive engineParseModel fingerprintModel "CC" "CN"
    ⟨"CC"⟩ ⟨"CN"⟩ rfl rfl (Finset.singleton_nonempty _)

/-- Claim C5: for every pair of SMILES accepted by the CDK engine, the CDK
Tanimoto similarity returns a scalar rational value in the closed unit
interval, provided the engine assigns the first molecule a nonempty
fingerprint; the computation is a pure function of its inputs, computed fresh
per call with no cache. -/
theorem tanimoto_in_unit_interval (cdkParse : String → Option Mol)
    (fingerprint : Mol → Finset Nat) (a b : String) (ma mb : Mol)
    (ha : cdkParse a = some ma) (hb : cdkParse b = some mb)
    (hne : (fingerprint ma).Nonempty) :
    ∃ q : ℚ, getTanimotoSimilarityCDK cdkParse fingerprint a b = .ok q ∧
      0 ≤ q ∧ q ≤ 1 := by
  refine ⟨format5 (tanimotoQ (fingerprint ma) (fingerprint mb)), ?_, ?_⟩
  · unfold getTanimotoSimilarityCDK
    rw [ha, hb]
  · obtain ⟨h0, h1⟩ :=
      tanimotoQ_mem_unit (fingerprint ma) (fingerprint mb) hne
    exact format5_mem_unit h0 h1

/-- Claim C5 witness: the similarity value at the concrete accepted pair CC
and CN lies in the unit interval. -/
theorem tanimoto_in_unit_interval_witness :
    ∃ q : ℚ, getTanimotoSimilarityCDK engineParseModel fingerprintModel
      "CC" "CN" = .ok q ∧ 0 ≤ q ∧ q ≤ 1 :=
  tanimoto_in_unit_interval engineParseModel fingerprintModel "CC" "CN"
    ⟨"CC"⟩ ⟨"CN"⟩ rfl rfl (Finset.singleton_nonempty _)
